import Mathlib

/-!
Verification of the rust_chat repository's wire codec and server-side
connection engine against its natural-language specification.

Bytes are modelled as `Nat` (each value intended `< 256`); byte buffers as
`List Nat`; machine arithmetic that can overflow carries explicit `% 2^w`
where it matters.  Fallible constructors return `Except`.
-/

/-! ## Frame codec of `chat_shared/src/message.rs` -/

/-- Embeds `enum MessageTypes` from `chat_shared/src/message.rs` (lines 1-8).
Note the enum has no `Error` variant: its variants are `ChatMessage`, `Join`,
`Leave`, `UserRename` and the catch-all `Unknown(u8)`. -/
inductive MessageTypes where
  | ChatMessage
  | Join
  | Leave
  | UserRename
  | Unknown (code : Nat)
deriving DecidableEq, Repr

/-- Embeds `impl From<u8> for MessageTypes` (message.rs lines 10-20):
bytes 1-4 map to the named variants, every other byte to `Unknown(byte)`. -/
def MessageTypes.fromByte (value : Nat) : MessageTypes :=
  if value = 1 then MessageTypes.ChatMessage
  else if value = 2 then MessageTypes.Join
  else if value = 3 then MessageTypes.Leave
  else if value = 4 then MessageTypes.UserRename
  else MessageTypes.Unknown value

/-- Embeds the `match message.msg_type` arm of `impl From<ChatMessage> for
Vec<u8>` (message.rs lines 92-98): the byte emitted for each variant. -/
def MessageTypes.toByte : MessageTypes → Nat
  | MessageTypes.ChatMessage => 1
  | MessageTypes.Join => 2
  | MessageTypes.Leave => 3
  | MessageTypes.UserRename => 4
  | MessageTypes.Unknown val => val

/-- Embeds `struct ChatMessage` (message.rs lines 22-27): a `u16` length
field, a type tag and an optional byte payload. -/
structure ChatMessage where
  msg_len : Nat
  msg_type : MessageTypes
  content : Option (List Nat)
deriving DecidableEq, Repr

/-- Embeds `enum ChatMessageError` (message.rs lines 29-33). -/
inductive ChatMessageError where
  | InvalidFormat
  | InvalidLength
deriving DecidableEq, Repr

/-- Embeds `ChatMessage::try_new` (message.rs lines 36-52).  With a payload,
`msg_len = data.len() + 3` (`checked_add(3)` cannot overflow on `Nat`); with
no payload, `msg_len = 1`.  `u16::try_from` succeeds exactly when the value
is at most 65535, otherwise the constructor fails with `InvalidLength`. -/
def ChatMessage.tryNew (msg_type : MessageTypes) (content : Option (List Nat)) :
    Except ChatMessageError ChatMessage :=
  let msg_len : Nat :=
    match content with
    | some data => data.length + 3
    | none => 1
  if msg_len ≤ 65535 then
    Except.ok { msg_len := msg_len, msg_type := msg_type, content := content }
  else
    Except.error ChatMessageError.InvalidLength

/-- Embeds `impl From<Vec<u8>> for ChatMessage` (message.rs lines 56-86), the
decoder.  An empty buffer yields `{0, Unknown(0), None}`; a buffer of fewer
than 3 bytes yields `{3, Unknown(0), None}`; otherwise the first two bytes
are read big-endian into `msg_len`, the third selects the type, and the
content test `buffer.len() > 1` is kept exactly as in the source (it is
always true on this branch, so the `None` arm is unreachable there). -/
def ChatMessage.fromBytes (buffer : List Nat) : ChatMessage :=
  match buffer with
  | [] => { msg_len := 0, msg_type := MessageTypes.Unknown 0, content := none }
  | [_] => { msg_len := 3, msg_type := MessageTypes.Unknown 0, content := none }
  | [_, _] => { msg_len := 3, msg_type := MessageTypes.Unknown 0, content := none }
  | b0 :: b1 :: b2 :: rest =>
      { msg_len := 256 * b0 + b1
        msg_type := MessageTypes.fromByte b2
        content :=
          if (b0 :: b1 :: b2 :: rest).length > 1 then some rest else none }

/-- Embeds `impl From<ChatMessage> for Vec<u8>` (message.rs lines 88-104),
the encoder: the two big-endian bytes of `msg_len`, the type byte, then the
payload if present. -/
def ChatMessage.toBytes (message : ChatMessage) : List Nat :=
  message.msg_len / 256 % 256 :: message.msg_len % 256 ::
    message.msg_type.toByte ::
    (match message.content with
     | some c => c
     | none => [])

/-! ## The `shared` crate's message type, used by `server/src` -/

namespace Shared

/-- Modelled from the spec: the `shared` crate used by
`server/src/user_connection/mod.rs` (via `use shared::message::...`) is not
among the available sources; per spec section 3 its message-type enum has
variants `ChatMessage`, `Join`, `Leave`, `UserRename`, `Error` and
`Unknown(raw-code)` (the live server constructs `MessageTypes::Error`
frames at mod.rs line 105). -/
inductive MessageTypes where
  | ChatMessage
  | Join
  | Leave
  | UserRename
  | Error
  | Unknown (code : Nat)
deriving DecidableEq, Repr

/-- Modelled from the spec: the `shared` crate's message value, a type tag
plus an optional byte payload with its declared length; per spec section 4.1
the declared length is `1 + payload-length` (`1` with no payload). -/
structure ChatMessage where
  msg_len : Nat
  msg_type : MessageTypes
  content : Option (List Nat)
deriving DecidableEq, Repr

/-- Modelled from the spec: the `shared` crate's `ChatMessage::try_new`
(called at mod.rs lines 104 and 126); per spec section 4.1 construction
fails with `InvalidLength` exactly when the declared length does not fit the
2-byte field, i.e. when the payload is longer than 65534 bytes. -/
def ChatMessage.tryNew (msg_type : MessageTypes) (content : Option (List Nat)) :
    Except ChatMessageError ChatMessage :=
  let msg_len : Nat :=
    match content with
    | some data => data.length + 1
    | none => 1
  if msg_len ≤ 65535 then
    Except.ok { msg_len := msg_len, msg_type := msg_type, content := content }
  else
    Except.error ChatMessageError.InvalidLength

end Shared

/-! ## Connection engine of `server/src/user_connection/mod.rs` -/

namespace UserConnection

/-- Observable state of one `UserConnection` together with the effects it has
produced: `chatName`/`registry` embed the `chat_name` field and the shared
`connected_clients` set (names as byte strings, since Rust `String::len` is
a byte length); `published` records this connection's `tx.send` calls (the
pairs `(message, self.addr)` it put on the Broadcast Hub); `writes` records
the frames it wrote to its own socket. -/
structure ConnState where
  chatName : Option (List Nat)
  registry : List (List Nat)
  published : List (Shared.ChatMessage × Nat)
  writes : List Shared.ChatMessage
deriving DecidableEq, Repr

/-- A freshly accepted connection: no display name yet, no publishes, no
writes; `registry` holds whatever names other connections have registered. -/
def initConnState (registry : List (List Nat)) : ConnState :=
  { chatName := none, registry := registry, published := [], writes := [] }

/-- Payload bytes of the kick notice built at mod.rs line 106. -/
def kickNotice : List Nat :=
  (String.toUTF8 "You have been kicked by the server").toList.map (fun b => b.toNat)

/-- Modelled from the spec: the `Error`-frame replies built inside the
missing `handlers.rs` (rate-limit and name-conflict answers, spec section
4.2); the payload text is abstracted to a fixed marker byte string. -/
def errorReply (marker : List Nat) : Shared.ChatMessage :=
  { msg_len := marker.length + 1
    msg_type := Shared.MessageTypes.Error
    content := some marker }

/-- Modelled from the spec: `MessageHandlers::process_message` of the missing
`server/src/user_connection/handlers.rs`, as described in spec sections
4.2-4.3.  `limited` abstracts the rate limiter's verdict for this frame (its
clock is not modelled): a rejected frame only provokes an `Error` reply.
Otherwise: inbound `ChatMessage` is published as `(message, own address)`
unchanged; `Join` registers the requested name if free (else an `Error`
reply, keeping the old/unset name); `UserRename` atomically replaces the old
name with the new one if the new one is free; other inbound types have no
effect. -/
def processMessage (own : Nat) (limited : Bool) (msg : Shared.ChatMessage)
    (s : ConnState) : ConnState :=
  if limited then
    { s with writes := s.writes ++ [errorReply [0]] }
  else
    match msg.msg_type with
    | Shared.MessageTypes.ChatMessage =>
        { s with published := s.published ++ [(msg, own)] }
    | Shared.MessageTypes.Join =>
        match msg.content with
        | some name =>
            if name ∈ s.registry then
              { s with writes := s.writes ++ [errorReply [1]] }
            else
              { s with registry := s.registry ++ [name], chatName := some name }
        | none => s
    | Shared.MessageTypes.UserRename =>
        match msg.content, s.chatName with
        | some newName, some oldName =>
            if newName ∈ s.registry then
              { s with writes := s.writes ++ [errorReply [1]] }
            else
              { s with
                  registry := (s.registry.filter (fun x => x ≠ oldName)) ++ [newName]
                  chatName := some newName }
        | _, _ => s
    | _ => s

/-- One completion of the three-way `tokio::select!` in
`UserConnection::handle` (mod.rs lines 61-118), as seen by this connection:
which source fired and with what outcome. -/
inductive LoopEvent where
  | inbound (limited : Bool) (msg : Shared.ChatMessage)
  | inboundIoError
  | inboundDisconnect
  | bcast (msg : Shared.ChatMessage) (src : Nat) (sendFails : Bool)
  | bcastRecvError
  | cmdKick (username : List Nat)
  | cmdRecvError
deriving DecidableEq, Repr

/-- Embeds one iteration of the loop in `UserConnection::handle` (mod.rs
lines 60-119).  Returns the new state and whether the branch executed
`break`.  Branch 1 (socket read): a decoded frame goes to `process_message`;
`IoError` and `Disconnect` break.  Branch 2 (broadcast receive): on `Ok((msg,
_src_addr))` the frame is written to this connection's socket with no origin
test (the source ignores `_src_addr`); a failed write breaks, a receive
error (lag or closed) breaks.  Branch 3 (command receive): `Kick(username)`
matching this connection's name sends the kick notice (when `try_new`
succeeds) and breaks; a non-matching kick does nothing; a receive error is
ignored and the loop continues (mod.rs lines 113-115). -/
def step (own : Nat) (s : ConnState) : LoopEvent → ConnState × Bool
  | LoopEvent.inbound limited msg => (processMessage own limited msg s, false)
  | LoopEvent.inboundIoError => (s, true)
  | LoopEvent.inboundDisconnect => (s, true)
  | LoopEvent.bcast msg _src sendFails =>
      if sendFails then (s, true)
      else ({ s with writes := s.writes ++ [msg] }, false)
  | LoopEvent.bcastRecvError => (s, true)
  | LoopEvent.cmdKick username =>
      match s.chatName with
      | some name =>
          if name = username then
            (match Shared.ChatMessage.tryNew Shared.MessageTypes.Error (some kickNotice) with
             | Except.ok m => ({ s with writes := s.writes ++ [m] }, true)
             | Except.error _ => (s, true))
          else (s, false)
      | none => (s, false)
  | LoopEvent.cmdRecvError => (s, false)

/-- Runs the `handle` loop over a finite prefix of select completions,
stopping early when a branch breaks.  The Boolean reports whether the loop
exited within the prefix. -/
def runLoop (own : Nat) (s : ConnState) : List LoopEvent → ConnState × Bool
  | [] => (s, false)
  | e :: es =>
      match step own s e with
      | (s1, true) => (s1, true)
      | (s1, false) => runLoop own s1 es

/-- Embeds the cleanup block after the loop (mod.rs lines 121-131): if a
display name was set it is removed from the shared set, and a `Leave` frame
carrying the name is published when `try_new` succeeds; with no name set,
nothing happens. -/
def cleanup (own : Nat) (s : ConnState) : ConnState :=
  match s.chatName with
  | some name =>
      let s1 := { s with registry := s.registry.filter (fun x => x ≠ name) }
      match Shared.ChatMessage.tryNew Shared.MessageTypes.Leave (some name) with
      | Except.ok m => { s1 with published := s1.published ++ [(m, own)] }
      | Except.error _ => s1
  | none => s

/-- Embeds `UserConnection::handle` end to end: run the loop on the given
event prefix, then run the cleanup block once. -/
def handle (own : Nat) (s : ConnState) (events : List LoopEvent) : ConnState :=
  cleanup own (runLoop own s events).1

/-- Published pair whose message has type `Leave` and carries `name`. -/
def isLeaveOf (name : List Nat) (p : Shared.ChatMessage × Nat) : Bool :=
  decide (p.1.msg_type = Shared.MessageTypes.Leave) && decide (p.1.content = some name)

/-- Published pair whose message has type `Leave` (any payload). -/
def isLeave (p : Shared.ChatMessage × Nat) : Bool :=
  decide (p.1.msg_type = Shared.MessageTypes.Leave)

end UserConnection

/-! ## Prototype engine of `chat_server/src/main.rs` -/

namespace NewConnection

/-- Embeds the broadcast-receive arm of the prototype `NewConnection::handle`
(chat_server/src/main.rs lines 68-81): the received frame is forwarded to
this connection's socket only when `src_addr != self.addr`. -/
def forwardBroadcast (own : Nat) (msg : ChatMessage) (src : Nat) : Option ChatMessage :=
  if src ≠ own then some msg else none

end NewConnection

/-! ## Listener/Dispatcher of `server/src/main.rs` -/

namespace ChatServer

/-- Embeds the accept arm of `ChatServer::run` (server/src/main.rs lines
60-92): with `active ≥ maxClients` the accepted socket is rejected (count
unchanged, no engine spawned, Boolean `false`); otherwise the count is
incremented before the engine is spawned (Boolean `true`). -/
def acceptConnection (maxClients active : Nat) : Nat × Bool :=
  if active ≥ maxClients then (active, false) else (active + 1, true)

/-- Embeds the tail of the spawned task (server/src/main.rs line 89): the
single `fetch_sub(1)` executed once when the engine's `handle` returns. -/
def engineFinished (active : Nat) : Nat := active - 1

end ChatServer

/-- Concrete event prefix used to exercise the claims about the connection
loop: a successful Join as "al" followed by an orderly disconnect. -/
def c5SampleEvents : List UserConnection.LoopEvent :=
  [UserConnection.LoopEvent.inbound false
      { msg_len := 3, msg_type := Shared.MessageTypes.Join, content := some [97, 108] },
   UserConnection.LoopEvent.inboundDisconnect]

/-! ## Helper lemmas -/

/-- Unfolding of `ChatMessage.tryNew` on a present payload. -/
theorem tryNew_some_chatShared_eq (t : MessageTypes) (c : List Nat) :
    ChatMessage.tryNew t (some c) =
      if c.length + 3 ≤ 65535 then
        Except.ok { msg_len := c.length + 3, msg_type := t, content := some c }
      else
        Except.error ChatMessageError.InvalidLength := rfl

/-- Unfolding of `ChatMessage.tryNew` on an absent payload. -/
theorem tryNew_none_chatShared_eq (t : MessageTypes) :
    ChatMessage.tryNew t none =
      Except.ok { msg_len := 1, msg_type := t, content := none } := rfl

/-- Unfolding of the spec-modelled `Shared.ChatMessage.tryNew` on a present
payload. -/
theorem tryNew_some_shared_eq (t : Shared.MessageTypes) (c : List Nat) :
    Shared.ChatMessage.tryNew t (some c) =
      if c.length + 1 ≤ 65535 then
        Except.ok { msg_len := c.length + 1, msg_type := t, content := some c }
      else
        Except.error ChatMessageError.InvalidLength := rfl

/-! ## Claims about the frame codec -/

/-- C2 (code evaluated at the failing input): a message constructed with
absent payload does not round-trip.  `try_new(Join, None)` succeeds with
`msg_len = 1`; encoding it gives the 3-byte frame `[0, 1, 2]`; decoding that
frame yields `content = Some([])`, not `None`, because the decoder's
`buffer.len() > 1` test is always true once 3 bytes are present — so
`decode(encode(m)) ≠ m`. -/
theorem c2_absent_payload_breaks_roundtrip :
    ChatMessage.tryNew MessageTypes.Join none =
      Except.ok { msg_len := 1, msg_type := MessageTypes.Join, content := none } ∧
    ChatMessage.toBytes { msg_len := 1, msg_type := MessageTypes.Join, content := none } =
      [0, 1, 2] ∧
    ChatMessage.fromBytes [0, 1, 2] =
      { msg_len := 1, msg_type := MessageTypes.Join, content := some [] } ∧
    ({ msg_len := 1, msg_type := MessageTypes.Join, content := some [] } : ChatMessage) ≠
      { msg_len := 1, msg_type := MessageTypes.Join, content := none } := by
  refine ⟨rfl, rfl, rfl, ?_⟩
  decide

/-- C3 (counterexample): constructing a message with the 1-byte payload
`[65]` stores declared length 4 in the message and in the encoded frame's
2-byte length field, but `1 + payload-length` is 2. -/
theorem c3_counterexample_payload_one_byte :
    ChatMessage.tryNew MessageTypes.ChatMessage (some [65]) =
      Except.ok { msg_len := 4, msg_type := MessageTypes.ChatMessage, content := some [65] } ∧
    ChatMessage.toBytes
        { msg_len := 4, msg_type := MessageTypes.ChatMessage, content := some [65] } =
      [0, 4, 1, 65] ∧
    (4 : Nat) ≠ 1 + ([65] : List Nat).length := by
  refine ⟨rfl, rfl, ?_⟩
  decide

/-- C3 (amended): for every successfully constructed message, the declared
length stored in the message and in the encoded frame's 2-byte big-endian
length field equals `3 + payload-length` when a payload is present, and
equals 1 when the payload is absent. -/
theorem c3_amended_declared_length (t : MessageTypes) (c : List Nat)
    (m mNone : ChatMessage)
    (h1 : ChatMessage.tryNew t (some c) = Except.ok m)
    (h2 : ChatMessage.tryNew t none = Except.ok mNone) :
    m.msg_len = c.length + 3 ∧ mNone.msg_len = 1 ∧
    256 * (ChatMessage.toBytes m).headD 0 +
        ((ChatMessage.toBytes m).drop 1).headD 0 = m.msg_len ∧
    256 * (ChatMessage.toBytes mNone).headD 0 +
        ((ChatMessage.toBytes mNone).drop 1).headD 0 = mNone.msg_len := by
  rw [tryNew_some_chatShared_eq] at h1
  rw [tryNew_none_chatShared_eq] at h2
  split at h1
  case isFalse => exact absurd h1 (by simp)
  case isTrue hle =>
    cases h1
    cases h2
    refine ⟨rfl, rfl, ?_, ?_⟩
    · simp only [ChatMessage.toBytes, List.headD, List.drop]
      omega
    · simp only [ChatMessage.toBytes, List.headD, List.drop]

/-- C3 (witness): the amended statement evaluated at type `Join`, payload
`[65]` and the two concrete constructed messages. -/
theorem c3_amended_declared_length_witness :
    ChatMessage.tryNew MessageTypes.Join (some [65]) =
      Except.ok { msg_len := 4, msg_type := MessageTypes.Join, content := some [65] } ∧
    ChatMessage.tryNew MessageTypes.Join none =
      Except.ok { msg_len := 1, msg_type := MessageTypes.Join, content := none } ∧
    ({ msg_len := 4, msg_type := MessageTypes.Join, content := some [65] } :
        ChatMessage).msg_len = ([65] : List Nat).length + 3 ∧
    ({ msg_len := 1, msg_type := MessageTypes.Join, content := none } :
        ChatMessage).msg_len = 1 := by
  refine ⟨rfl, rfl, ?_, rfl⟩
  exact (c3_amended_declared_length MessageTypes.Join [65]
    { msg_len := 4, msg_type := MessageTypes.Join, content := some [65] }
    { msg_len := 1, msg_type := MessageTypes.Join, content := none } rfl rfl).1

/-- C4 (counterexample): the 3-byte buffer `[0, 5, 1]` declares length 5 but
only 3 bytes are available; decode does not report any error (no `Truncated`
variant exists in `ChatMessageError`) — it returns a complete message with
the declared length recorded and an empty payload. -/
theorem c4_counterexample_short_buffer_decodes :
    ChatMessage.fromBytes [0, 5, 1] =
      { msg_len := 5, msg_type := MessageTypes.ChatMessage, content := some [] } ∧
    ([0, 5, 1] : List Nat).length < 5 := by
  refine ⟨rfl, ?_⟩
  decide

/-- C4 (amended): decoding is infallible on short input.  For every buffer of
at least 3 bytes whose available length is below the value declared in its
2-byte length field, `From<Vec<u8>>` still returns a message: the declared
length is recorded in `msg_len` and the payload is exactly the bytes present
after the 3-byte header; no `Truncated` error is reported and the entire
buffer is consumed. -/
theorem c4_amended_decode_total_on_short (b0 b1 b2 : Nat) (rest : List Nat)
    (hshort : (b0 :: b1 :: b2 :: rest).length < 256 * b0 + b1) :
    ChatMessage.fromBytes (b0 :: b1 :: b2 :: rest) =
      { msg_len := 256 * b0 + b1
        msg_type := MessageTypes.fromByte b2
        content := some rest } := by
  simp [ChatMessage.fromBytes]

/-- C4 (witness): the amended statement evaluated at the buffer `[0, 9, 1]`,
which declares length 9 with only 3 bytes available. -/
theorem c4_amended_decode_total_on_short_witness :
    ((0 : Nat) :: 9 :: 1 :: ([] : List Nat)).length < 256 * 0 + 9 ∧
    ChatMessage.fromBytes [0, 9, 1] =
      { msg_len := 256 * 0 + 9
        msg_type := MessageTypes.fromByte 1
        content := some [] } :=
  ⟨by decide, c4_amended_decode_total_on_short 0 9 1 [] (by decide)⟩

/-- C7 (counterexample): the `message_type` byte 5 does not decode to an
`Error` message — `MessageTypes` of `chat_shared` has no `Error` variant at
all — it decodes to `Unknown(5)` like every other unmapped byte. -/
theorem c7_counterexample_byte_five_is_unknown :
    MessageTypes.fromByte 5 = MessageTypes.Unknown 5 := rfl

/-- C7 (amended): decoding maps byte 1 to `ChatMessage`, 2 to `Join`, 3 to
`Leave` and 4 to `UserRename`; every other byte value — including 5 —
decodes to `Unknown(byte)`, and re-encoding `Unknown(byte)` emits exactly
the original byte. -/
theorem c7_amended_type_byte_map (b : Nat)
    (hb : b ≠ 1 ∧ b ≠ 2 ∧ b ≠ 3 ∧ b ≠ 4) :
    MessageTypes.fromByte 1 = MessageTypes.ChatMessage ∧
    MessageTypes.fromByte 2 = MessageTypes.Join ∧
    MessageTypes.fromByte 3 = MessageTypes.Leave ∧
    MessageTypes.fromByte 4 = MessageTypes.UserRename ∧
    MessageTypes.fromByte b = MessageTypes.Unknown b ∧
    MessageTypes.toByte (MessageTypes.Unknown b) = b := by
  obtain ⟨h1, h2, h3, h4⟩ := hb
  refine ⟨rfl, rfl, rfl, rfl, ?_, rfl⟩
  simp [MessageTypes.fromByte, h1, h2, h3, h4]

/-- C7 (witness): the amended statement evaluated at byte 5. -/
theorem c7_amended_type_byte_map_witness :
    ((5 : Nat) ≠ 1 ∧ (5 : Nat) ≠ 2 ∧ (5 : Nat) ≠ 3 ∧ (5 : Nat) ≠ 4) ∧
    (MessageTypes.fromByte 5 = MessageTypes.Unknown 5 ∧
     MessageTypes.toByte (MessageTypes.Unknown 5) = 5) :=
  ⟨by decide,
   ⟨(c7_amended_type_byte_map 5 (by decide)).2.2.2.2.1,
    (c7_amended_type_byte_map 5 (by decide)).2.2.2.2.2⟩⟩

/-- C8 (counterexample): a payload of 65533 bytes is at most 65534 bytes
long, yet construction fails with `InvalidLength`, because the declared
length is `payload-length + 3 = 65536`, which does not fit the 2-byte
field. -/
theorem c8_counterexample_payload_65533 :
    ChatMessage.tryNew MessageTypes.ChatMessage (some (List.replicate 65533 0)) =
      Except.error ChatMessageError.InvalidLength ∧
    (List.replicate 65533 (0 : Nat)).length ≤ 65534 := by
  have hlen : (List.replicate 65533 (0 : Nat)).length = 65533 :=
    List.length_replicate 65533 0
  constructor
  · rw [tryNew_some_chatShared_eq, hlen, if_neg (by norm_num)]
  · rw [hlen]; omega

/-- C8 (amended): construction with a present payload fails with
`InvalidLength` exactly when the payload is longer than 65532 bytes (the
declared length `payload-length + 3` would not fit the 2-byte field); for
every payload of at most 65532 bytes construction succeeds. -/
theorem c8_amended_invalid_length_threshold (t : MessageTypes) (c : List Nat) :
    (ChatMessage.tryNew t (some c) =
        Except.error ChatMessageError.InvalidLength ↔ 65532 < c.length) ∧
    (c.length ≤ 65532 →
      ChatMessage.tryNew t (some c) =
        Except.ok { msg_len := c.length + 3, msg_type := t, content := some c }) := by
  rw [tryNew_some_chatShared_eq]
  constructor
  · split
    case isTrue h => simp; omega
    case isFalse h => simp; omega
  · intro hlen
    rw [if_pos (by omega)]

/-- C8 (witness): the amended statement evaluated at type `Join` and the
empty payload. -/
theorem c8_amended_invalid_length_threshold_witness :
    ([] : List Nat).length ≤ 65532 ∧
    ChatMessage.tryNew MessageTypes.Join (some []) =
      Except.ok { msg_len := ([] : List Nat).length + 3
                  msg_type := MessageTypes.Join
                  content := some [] } :=
  ⟨by decide, (c8_amended_invalid_length_threshold MessageTypes.Join []).2 (by decide)⟩

/-- C10: decoding any buffer of fewer than 3 bytes (including the empty
buffer) yields a message of type `Unknown(0)` with absent payload; the
decoder is a total function, so no input makes it fail. -/
theorem c10_short_buffer_decodes_unknown_zero (buffer : List Nat)
    (h : buffer.length < 3) :
    (ChatMessage.fromBytes buffer).msg_type = MessageTypes.Unknown 0 ∧
    (ChatMessage.fromBytes buffer).content = none := by
  match buffer with
  | [] => exact ⟨rfl, rfl⟩
  | [_] => exact ⟨rfl, rfl⟩
  | [_, _] => exact ⟨rfl, rfl⟩
  | _ :: _ :: _ :: _ => simp at h; omega

/-- C10 (witness): the statement evaluated at the empty buffer. -/
theorem c10_short_buffer_decodes_unknown_zero_witness :
    ([] : List Nat).length < 3 ∧
    ((ChatMessage.fromBytes []).msg_type = MessageTypes.Unknown 0 ∧
     (ChatMessage.fromBytes []).content = none) :=
  ⟨by decide, c10_short_buffer_decodes_unknown_zero [] (by decide)⟩

/-! ## Claims about the connection engine and listener -/

/-- C1 (code evaluated at the failing input): echo-to-sender is not
prevented by the live engine.  A `UserConnection` with remote address 7 that
receives the pair `(m, 7)` — a message whose origin is its own address —
from the Broadcast Hub still writes `m` to its own socket, because the
receive arm of `UserConnection::handle` ignores `_src_addr`; the prototype
engine (`NewConnection::handle` in chat_server), by contrast, forwards
nothing when the origin equals its own address. -/
theorem c1_live_engine_echoes_to_sender :
    UserConnection.step 7 (UserConnection.initConnState [])
        (UserConnection.LoopEvent.bcast
          { msg_len := 3, msg_type := Shared.MessageTypes.ChatMessage
            content := some [104, 105] } 7 false) =
      ({ chatName := none, registry := [], published := []
         writes := [{ msg_len := 3, msg_type := Shared.MessageTypes.ChatMessage
                      content := some [104, 105] }] }, false) ∧
    NewConnection.forwardBroadcast 7
        { msg_len := 5, msg_type := MessageTypes.ChatMessage
          content := some [104, 105] } 7 = none := by
  refine ⟨rfl, ?_⟩
  simp [NewConnection.forwardBroadcast]

/-- C6 (counterexample): a receive error (lag or closed) on the Admin
Command Bus subscription does not make the connection exit its loop — the
`break` flag is `false` and the state is unchanged, because the command arm
matches `Err(_)` with an empty, commented "ignore" body. -/
theorem c6_counterexample_cmd_bus_error_ignored :
    UserConnection.step 0 (UserConnection.initConnState [])
        UserConnection.LoopEvent.cmdRecvError =
      (UserConnection.initConnState [], false) := rfl

/-- C6 (amended): the two bus subscriptions behave differently on a lag or
closed condition.  A receive error on the Broadcast Hub subscription logs
and exits the event loop; a receive error on the Admin Command Bus
subscription is ignored and the loop continues. -/
theorem c6_amended_bus_error_asymmetry (own : Nat) (s : UserConnection.ConnState) :
    UserConnection.step own s UserConnection.LoopEvent.bcastRecvError = (s, true) ∧
    UserConnection.step own s UserConnection.LoopEvent.cmdRecvError = (s, false) :=
  ⟨rfl, rfl⟩

/-- C9: the listener rejects an accepted socket without spawning an engine
whenever the active count has reached the configured maximum, leaving the
count unchanged; below the maximum it increments the count before the
engine starts, and the spawned task's single `fetch_sub` brings the count
back when the engine finishes. -/
theorem c9_connection_limit (maxClients active : Nat) :
    (maxClients ≤ active →
      ChatServer.acceptConnection maxClients active = (active, false)) ∧
    (active < maxClients →
      ChatServer.acceptConnection maxClients active = (active + 1, true) ∧
      ChatServer.engineFinished (active + 1) = active) := by
  constructor
  · intro h
    simp [ChatServer.acceptConnection, h]
  · intro h
    have hnot : ¬ active ≥ maxClients := by omega
    simp [ChatServer.acceptConnection, ChatServer.engineFinished, hnot]

/-- C9 (witness): the statement evaluated at maximum 3 with 5 active
connections (reject) and at maximum 8 with 5 active connections (spawn then
finish). -/
theorem c9_connection_limit_witness :
    ((3 : Nat) ≤ 5 ∧ ChatServer.acceptConnection 3 5 = (5, false)) ∧
    ((5 : Nat) < 8 ∧ (ChatServer.acceptConnection 8 5 = (6, true) ∧
      ChatServer.engineFinished 6 = 5)) :=
  ⟨⟨by decide, (c9_connection_limit 3 5).1 (by decide)⟩,
   ⟨by decide, (c9_connection_limit 8 5).2 (by decide)⟩⟩

/-- Processing one inbound frame never publishes a `Leave` message: the only
publish it performs is the fan-out of an inbound `ChatMessage`, whose type
is `ChatMessage`. -/
theorem processMessage_no_leave_publish (own : Nat) (limited : Bool)
    (msg : Shared.ChatMessage) (s : UserConnection.ConnState) :
    (UserConnection.processMessage own limited msg s).published.filter
        UserConnection.isLeave =
      s.published.filter UserConnection.isLeave := by
  obtain ⟨len, mt, ct⟩ := msg
  cases limited with
  | true => simp [UserConnection.processMessage]
  | false =>
    cases mt with
    | ChatMessage =>
        simp [UserConnection.processMessage, List.filter_append, UserConnection.isLeave]
    | Join =>
        cases ct with
        | some name =>
            by_cases h : name ∈ s.registry <;>
              simp [UserConnection.processMessage, h]
        | none => simp [UserConnection.processMessage]
    | UserRename =>
        cases ct with
        | some newName =>
            cases hc : s.chatName with
            | some oldName =>
                by_cases h : newName ∈ s.registry <;>
                  simp [UserConnection.processMessage, hc, h]
            | none => simp [UserConnection.processMessage, hc]
        | none => simp [UserConnection.processMessage]
    | Leave => simp [UserConnection.processMessage]
    | Error => simp [UserConnection.processMessage]
    | Unknown code => simp [UserConnection.processMessage]

/-- A single loop iteration never publishes a `Leave` message, whichever
select branch fired. -/
theorem step_no_leave_publish (own : Nat) (s : UserConnection.ConnState)
    (e : UserConnection.LoopEvent) :
    ((UserConnection.step own s e).1).published.filter UserConnection.isLeave =
      s.published.filter UserConnection.isLeave := by
  cases e with
  | inbound limited msg =>
      simpa [UserConnection.step] using
        processMessage_no_leave_publish own limited msg s
  | inboundIoError => rfl
  | inboundDisconnect => rfl
  | bcast msg src sendFails => cases sendFails <;> simp [UserConnection.step]
  | bcastRecvError => rfl
  | cmdKick username =>
      cases hc : s.chatName with
      | none => simp [UserConnection.step, hc]
      | some name =>
          by_cases h : name = username
          · cases htry : Shared.ChatMessage.tryNew Shared.MessageTypes.Error
                (some UserConnection.kickNotice) with
            | ok m => simp [UserConnection.step, hc, h, htry]
            | error err => simp [UserConnection.step, hc, h, htry]
          · simp [UserConnection.step, hc, h]
  | cmdRecvError => rfl

/-- The whole event loop never publishes a `Leave` message before the
cleanup block runs. -/
theorem runLoop_no_leave_publish (own : Nat) (events : List UserConnection.LoopEvent)
    (s : UserConnection.ConnState) :
    ((UserConnection.runLoop own s events).1).published.filter UserConnection.isLeave =
      s.published.filter UserConnection.isLeave := by
  induction events generalizing s with
  | nil => rfl
  | cons e es ih =>
      have hstep := step_no_leave_publish own s e
      rcases hs : UserConnection.step own s e with ⟨s1, brk⟩
      rw [hs] at hstep
      cases brk with
      | false =>
          simp only [UserConnection.runLoop, hs]
          rw [ih s1, hstep]
      | true =>
          simp only [UserConnection.runLoop, hs]
          exact hstep

/-- A list with no `Leave` entries has no `Leave`-carrying-`name` entries
either. -/
theorem filter_isLeaveOf_eq_nil (name : List Nat)
    (l : List (Shared.ChatMessage × Nat))
    (h : l.filter UserConnection.isLeave = []) :
    l.filter (UserConnection.isLeaveOf name) = [] := by
  rw [List.filter_eq_nil_iff] at h ⊢
  intro a ha
  have hno := h a ha
  simp [UserConnection.isLeave] at hno
  simp [UserConnection.isLeaveOf, hno]

/-- C5: whenever the event loop of `UserConnection::handle` exits — by I/O
error, orderly disconnect, kick, or broadcast-bus error — exactly one
cleanup runs: if a display name was set on the connection, the name is
removed from the User Registry and exactly one `Leave` message carrying that
name is published to the Broadcast Hub (its `try_new` succeeds because any
settable name fits a frame payload, at most 65534 bytes); if no display name
was set, the cleanup changes nothing — no registry removal and no `Leave`
publish. -/
theorem c5_cleanup_exactly_once (own : Nat) (reg0 : List (List Nat))
    (events : List UserConnection.LoopEvent)
    (hexit : (UserConnection.runLoop own (UserConnection.initConnState reg0)
        events).2 = true) :
    (∀ name,
        ((UserConnection.runLoop own (UserConnection.initConnState reg0)
            events).1).chatName = some name →
        name.length ≤ 65534 →
        name ∉ (UserConnection.handle own (UserConnection.initConnState reg0)
            events).registry ∧
        ((UserConnection.handle own (UserConnection.initConnState reg0)
            events).published.filter (UserConnection.isLeaveOf name)).length = 1) ∧
    (((UserConnection.runLoop own (UserConnection.initConnState reg0)
        events).1).chatName = none →
        UserConnection.handle own (UserConnection.initConnState reg0) events =
          (UserConnection.runLoop own (UserConnection.initConnState reg0)
            events).1) := by
  have hnol := runLoop_no_leave_publish own events (UserConnection.initConnState reg0)
  constructor
  · intro name hname hlen
    have hnil : ((UserConnection.runLoop own (UserConnection.initConnState reg0)
        events).1).published.filter UserConnection.isLeave = [] := by
      simpa [UserConnection.initConnState] using hnol
    have hnilOf := filter_isLeaveOf_eq_nil name _ hnil
    have hok : Shared.ChatMessage.tryNew Shared.MessageTypes.Leave (some name) =
        Except.ok { msg_len := name.length + 1
                    msg_type := Shared.MessageTypes.Leave
                    content := some name } := by
      rw [tryNew_some_shared_eq, if_pos (by omega)]
    constructor
    · simp [UserConnection.handle, UserConnection.cleanup, hname, hok, List.mem_filter]
    · simp [UserConnection.handle, UserConnection.cleanup, hname, hok,
        List.filter_append, hnilOf, UserConnection.isLeaveOf]
  · intro hnone
    simp [UserConnection.handle, UserConnection.cleanup, hnone]

/-- C5 (witness): the statement evaluated on the concrete run that joins as
"al" (bytes `[97, 108]`) and then disconnects. -/
theorem c5_cleanup_exactly_once_witness :
    (UserConnection.runLoop 0 (UserConnection.initConnState []) c5SampleEvents).2 =
      true ∧
    ((UserConnection.runLoop 0 (UserConnection.initConnState [])
        c5SampleEvents).1).chatName = some [97, 108] ∧
    ([97, 108] : List Nat).length ≤ 65534 ∧
    ([97, 108] ∉ (UserConnection.handle 0 (UserConnection.initConnState [])
        c5SampleEvents).registry ∧
     ((UserConnection.handle 0 (UserConnection.initConnState [])
         c5SampleEvents).published.filter
        (UserConnection.isLeaveOf [97, 108])).length = 1) :=
  ⟨by decide, by decide, by decide,
   (c5_cleanup_exactly_once 0 [] c5SampleEvents (by decide)).1 [97, 108]
     (by decide) (by decide)⟩
